import Mathlib

/-!
Shallow embedding of the VDTE template/version service
(`src/app/models.py`, `src/app/schemas.py`, `src/app/routers/templates.py`).

Templates are mutable metadata records; versions are append-only records
numbered per template. The database is modelled as two lists of rows;
each HTTP endpoint of `routers/templates.py` becomes a Lean function on
that state. FastAPI/pydantic boundary parsing of the version payload
(`schemas.py`, `TemplateDataCreate`) is modelled separately as
`TemplateDataCreate.parse`; the router functions receive the already
parsed payload, which the routers store verbatim via `vars(...)`
(modelled as a `Json` value).

SQLAlchemy column defaults such as `created_at = Column(DateTime,
default=datetime.now(timezone.utc))` (models.py lines 30 and 44) are
evaluated ONCE at module import; this frozen value is modelled by
`Run.moduleLoadTime`, fixed for a whole process run.
-/

namespace VDTE

/-- Opaque structured (JSON-shaped) data, as stored in the JSONB columns. -/
inductive Json where
  | null : Json
  | bool (b : Bool) : Json
  | num (n : Int) : Json
  | str (s : String) : Json
  | arr (items : List Json) : Json
  | obj (fields : List (String × Json)) : Json

/-- One process run of the application. `moduleLoadTime` is the value of
`datetime.now(timezone.utc)` captured when `app/models.py` was imported:
it is the (single, frozen) SQLAlchemy column default used for every
`created_at` during the run. -/
structure Run where
  moduleLoadTime : Nat
deriving DecidableEq

/-- `Template` ORM row (models.py lines 23-34). `name` and
`sub_template_types` are `Option`s because the in-memory ORM object can
be assigned `None` by `update_metadata` even though the columns are
declared `nullable=False`. -/
structure Template where
  id : Nat
  user_id : Nat
  name : Option String
  sub_template_types : Option (List String)
  created_at : Nat
deriving DecidableEq

/-- `TemplateVersion` ORM row (models.py lines 37-47). The `version`
column carries NO unique constraint and no uniqueness over
`(template_id, version)` — it is a plain `Integer, nullable=False`. -/
structure TemplateVersion where
  id : Nat
  template_id : Nat
  version : Nat
  data : Json
  created_at : Nat

/-- Database state: the two tables. -/
structure DB where
  templates : List Template
  versions : List TemplateVersion

/-- Error outcomes of a request. `templateNotFound` is the
`HTTPException(404, "Template not found")` raised identically in every
router; `noneTypeCrash` is an unhandled Python `AttributeError` from
reading an attribute of `None` (an HTTP 500, not a designed error). -/
inductive Err where
  | templateNotFound : Err
  | noneTypeCrash : Err
deriving DecidableEq

/-- `db.query(Template).filter(Template.id == template_id,
Template.user_id == current_user.id).first()` — the ownership-scoped
lookup every endpoint begins with. -/
def getOwned (db : DB) (tid uid : Nat) : Option Template :=
  db.templates.find? (fun t => t.id == tid && t.user_id == uid)

/-- Fold step keeping the row with the larger `version` number. -/
def pickNewer (acc : Option TemplateVersion) (v : TemplateVersion) : Option TemplateVersion :=
  match acc with
  | none => some v
  | some w => if w.version < v.version then some v else some w

/-- `db.query(TemplateVersion).filter(template_id ==
tid).order_by(version.desc()).first()`: the stored version row with the
greatest `version` number for `tid` (folded maximum; `none` when the
template has no versions). -/
def latestVersionRecord (db : DB) (tid : Nat) : Option TemplateVersion :=
  (db.versions.filter (fun v => v.template_id == tid)).foldl pickNewer none

/-- `new_version_number = latest_version.version + 1 if latest_version
else 1` (templates.py line 173): the READ half of `add_version`. -/
def nextVersionNumber (db : DB) (tid : Nat) : Nat :=
  match latestVersionRecord db tid with
  | some v => v.version + 1
  | none => 1

/-- `db.add(TemplateVersion(template_id=..., version=n, data=...));
db.commit()` (templates.py lines 176-180): the WRITE half of
`add_version`. `created_at` falls back to the frozen column default. -/
def writeVersion (run : Run) (db : DB) (tid n : Nat) (data : Json) (vid : Nat) : DB :=
  { db with versions := db.versions ++ [⟨vid, tid, n, data, run.moduleLoadTime⟩] }

/-- First half of `create_template` (templates.py lines 30-38): insert
the metadata row and COMMIT. After this commit the template is durable
and visible to readers even if the process dies before the second
commit. `tid` stands for the freshly generated `uuid4`. -/
def createTemplateStep1 (run : Run) (db : DB) (uid : Nat) (name : String)
    (subs : List String) (tid : Nat) : DB :=
  { db with templates := db.templates ++ [⟨tid, uid, some name, some subs, run.moduleLoadTime⟩] }

/-- Second half of `create_template` (templates.py lines 40-47): insert
the initial `TemplateVersion` with the literal `version=1` and commit
again (a SECOND, separate transaction). -/
def createTemplateStep2 (run : Run) (db : DB) (tid vid : Nat) (data : Json) : DB :=
  { db with versions := db.versions ++ [⟨vid, tid, 1, data, run.moduleLoadTime⟩] }

/-- `POST /templates/` (templates.py lines 24-53): both steps run to
completion; returns the new id and version number 1. -/
def create_template (run : Run) (db : DB) (uid : Nat) (name : String)
    (subs : List String) (data : Json) (tid vid : Nat) : DB × Nat × Nat :=
  (createTemplateStep2 run (createTemplateStep1 run db uid name subs tid) tid vid data,
   tid, 1)

/-- Latest-version summary attached to template listings
(`TemplateVersionResponse`: id, version, created_at only). -/
structure VersionSummary where
  id : Nat
  version : Nat
  created_at : Nat
deriving DecidableEq

/-- `TemplateResponse` as built by `GET /templates/` (templates.py lines
72-88); `latest_version` is `None` when the template has no versions
(the code guards this case explicitly). -/
structure TemplateResponse where
  id : Nat
  name : Option String
  sub_template_types : Option (List String)
  created_at : Nat
  latest_version : Option VersionSummary
deriving DecidableEq

/-- `GET /templates/` (templates.py lines 57-90): all templates of the
user, each with a latest-version summary or `None`. -/
def get_templates (db : DB) (uid : Nat) : List TemplateResponse :=
  (db.templates.filter (fun t => t.user_id == uid)).map (fun t =>
    { id := t.id
      name := t.name
      sub_template_types := t.sub_template_types
      created_at := t.created_at
      latest_version := (latestVersionRecord db t.id).map
        (fun v => ⟨v.id, v.version, v.created_at⟩) })

/-- `GET /templates/{id}` (templates.py lines 94-116). On the found
path the code reads `latest_version.__dict__` without a `None` check
(line 116), so a versionless template crashes with an AttributeError. -/
def get_template (db : DB) (uid tid : Nat) : Except Err (Template × TemplateVersion) :=
  match getOwned db tid uid with
  | none => Except.error Err.templateNotFound
  | some t =>
    match latestVersionRecord db tid with
    | none => Except.error Err.noneTypeCrash
    | some v => Except.ok (t, v)

/-- `POST /templates/{id}/versions` (templates.py lines 149-182):
ownership check, then the read half (`nextVersionNumber`) and the write
half (`writeVersion`) with NOTHING serializing the two against a
concurrent request. Returns the new state and the version number. -/
def add_version (run : Run) (db : DB) (uid tid : Nat) (data : Json) (vid : Nat) :
    Except Err (DB × Nat) :=
  match getOwned db tid uid with
  | none => Except.error Err.templateNotFound
  | some _ =>
    let n := nextVersionNumber db tid
    Except.ok (writeVersion run db tid n data vid, n)

/-- Ascending insertion by version number, modelling
`order_by(TemplateVersion.version)`. -/
def insertByVersion (v : TemplateVersion) : List TemplateVersion → List TemplateVersion
  | [] => [v]
  | w :: ws =>
    if v.version ≤ w.version then v :: w :: ws else w :: insertByVersion v ws

/-- Stable ascending sort by version number. -/
def sortByVersion (l : List TemplateVersion) : List TemplateVersion :=
  l.foldr insertByVersion []

/-- `GET /templates/{id}/versions` (templates.py lines 186-215): the
template's version rows ascending by version number, under the same
ownership gate. -/
def list_versions (db : DB) (uid tid : Nat) : Except Err (Nat × List TemplateVersion) :=
  match getOwned db tid uid with
  | none => Except.error Err.templateNotFound
  | some _ =>
    Except.ok (tid, sortByVersion (db.versions.filter (fun v => v.template_id == tid)))

/-- `db.query(TemplateVersion).filter(template_id == tid, id ==
version_id).first()` (templates.py lines 237-243). -/
def findVersion (db : DB) (tid vid : Nat) : Option TemplateVersion :=
  db.versions.find? (fun v => v.template_id == tid && v.id == vid)

/-- `TemplateVersionDetailedResponse`: full payload included. -/
structure VersionDetail where
  id : Nat
  version : Nat
  created_at : Nat
  data : Json

/-- `GET /templates/{id}/versions/{version_id}` (templates.py lines
219-250, function `get_versions` in the source). When the version
lookup returns `None` the code reads `template_version.id` anyway (line
246) — an unhandled AttributeError, not a designed 404. -/
def get_versions (db : DB) (uid tid vid : Nat) : Except Err VersionDetail :=
  match getOwned db tid uid with
  | none => Except.error Err.templateNotFound
  | some _ =>
    match findVersion db tid vid with
    | none => Except.error Err.noneTypeCrash
    | some v => Except.ok ⟨v.id, v.version, v.created_at, v.data⟩

/-- `DELETE /templates/{id}` (templates.py lines 120-145): ownership
check, delete every version row of the template, then delete the found
template row (the first query match), one commit. -/
def delete_template (db : DB) (uid tid : Nat) : Except Err DB :=
  match getOwned db tid uid with
  | none => Except.error Err.templateNotFound
  | some _ =>
    Except.ok
      { templates := db.templates.eraseP (fun t => t.id == tid && t.user_id == uid)
        versions := db.versions.filter (fun v => !(v.template_id == tid)) }

/-- `TemplateUpdate` (schemas.py lines 76-78): every field optional,
defaulting to `None`. -/
structure TemplateUpdate where
  name : Option String
  sub_template_types : Option (List String)
deriving DecidableEq

/-- `for field, value in vars(updates).items(): setattr(template, field,
value)` (templates.py lines 270-271). `vars` on the pydantic model
yields ALL declared fields — including those left at their default
`None` — so every field is assigned, absent ones included. -/
def applyUpdates (t : Template) (u : TemplateUpdate) : Template :=
  { t with name := u.name, sub_template_types := u.sub_template_types }

/-- `PATCH /templates/{id}/metadata` (templates.py lines 254-275):
ownership check, then the unconditional field assignment above, commit,
and return of the updated row. -/
def update_metadata (db : DB) (uid tid : Nat) (u : TemplateUpdate) :
    Except Err (DB × Template) :=
  match getOwned db tid uid with
  | none => Except.error Err.templateNotFound
  | some t =>
    let newTemplates := db.templates.map
      (fun x => if x.id == tid && x.user_id == uid then applyUpdates x u else x)
    Except.ok ({ db with templates := newTemplates }, applyUpdates t u)

/-- The version NUMBERS currently stored for a template. -/
def versionNums (db : DB) (tid : Nat) : List Nat :=
  (db.versions.filter (fun v => v.template_id == tid)).map (fun v => v.version)

/-! ### Concrete states used by counterexamples and witnesses -/

/-- Payload of the spec scenario: `{rows:2, cols:3}`. -/
def payload1 : Json := Json.obj [("rows", Json.num 2), ("cols", Json.num 3)]

/-- Payload of the spec scenario's second version: `{rows:4, cols:3}`. -/
def payload2 : Json := Json.obj [("rows", Json.num 4), ("cols", Json.num 3)]

/-- One template (id 1, owner 7, name "A4", tags ["cover"]) holding its
initial version (row id 10, version number 1). -/
def db1T : DB :=
  ⟨[⟨1, 7, some "A4", some ["cover"], 0⟩], [⟨10, 1, 1, payload1, 0⟩]⟩

/-- The state produced by interleaving two `add_version` requests on
`db1T` as [read₁, read₂, write₁, write₂]: both requests run the read
half (`nextVersionNumber`, templates.py lines 166-173) against the same
state before either runs the write half (lines 176-180). Nothing in the
code or schema (no unique constraint on `(template_id, version)`, no
lock, no retry) prevents this interleaving. -/
def raceState : DB :=
  let n1 := nextVersionNumber db1T 1
  let n2 := nextVersionNumber db1T 1
  writeVersion ⟨0⟩ (writeVersion ⟨0⟩ db1T 1 n1 payload2 11) 1 n2 payload2 12

/-- The state reached when `create_template` (templates.py lines 24-53)
is interrupted after its first `db.commit()` (line 37) and before its
second (line 47): the metadata row is durably committed, the version-1
row is not. -/
def crashedCreateState : DB :=
  createTemplateStep1 ⟨5⟩ ⟨[], []⟩ 7 "A4" ["cover"] 1

/-! ### C2 -/

/-- C2: REFUTED ON THE CODE (code bug). Two concurrent `add_version`
calls on the same template CAN produce the same version number: with
`db1T` holding highest version 1, the interleaving where both requests
execute the read half before either executes the write half makes both
compute `new_version_number = 2`, and both inserts succeed (the
`version` column has no unique constraint and no lock serializes the
read-then-write). The stored numbers become `[1, 2, 2]` — a duplicate,
not N distinct contiguous numbers. -/
theorem C2_concurrent_appends_collide :
    versionNums raceState 1 = [1, 2, 2] ∧ ¬ (versionNums raceState 1).Nodup := by
  constructor
  · rfl
  · decide

/-! ### C3 -/

/-- C3: REFUTED ON THE CODE (code bug). `create_template` commits the
metadata row and the version-1 row in two separate transactions
(templates.py lines 37 and 47). In the state where the process fails
between the two commits, `GET /templates/` (`get_templates`) returns
the new template — fully visible to readers, with `latest_version =
None` — while it has NO stored versions, contradicting atomicity. -/
theorem C3_create_not_atomic :
    get_templates crashedCreateState 7 = [⟨1, some "A4", some ["cover"], 5, none⟩]
  ∧ versionNums crashedCreateState 1 = [] := by
  constructor
  · rfl
  · rfl

/-! ### C4 -/

/-- C4: REFUTED ON THE CODE (code bug). `update_metadata` iterates
`vars(updates)` (templates.py line 270), which contains EVERY field of
`TemplateUpdate` including those left at their default `None`, and
assigns each unconditionally. Updating `db1T`'s template with only
`name = "B"` supplied therefore overwrites `sub_template_types`
(previously `["cover"]`) with `None` instead of leaving it unchanged. -/
theorem C4_update_clobbers_absent_fields :
    (update_metadata db1T 7 1 ⟨some "B", none⟩).toOption.map
      (fun r => (r.2.name, r.2.sub_template_types)) = some (some "B", none)
  ∧ (getOwned db1T 1 7).map (fun t => t.sub_template_types) = some (some ["cover"]) := by
  constructor
  · rfl
  · rfl

/-! ### C5 -/

/-- C5: REFUTED ON THE CODE (code bug). `get_versions` (templates.py
lines 219-250) performs the version lookup with `.first()` and then
dereferences the result without a `None` check (line 246). For an owned
template and a version id that does not exist (id 99 against `db1T`,
whose only version row has id 10) the request dies with an unhandled
`AttributeError` on `None` (HTTP 500), which is not the distinct
"version not found" error the spec requires. -/
theorem C5_missing_version_crashes :
    get_versions db1T 7 1 99 = Except.error Err.noneTypeCrash
  ∧ Err.noneTypeCrash ≠ Err.templateNotFound := by
  constructor
  · rfl
  · decide

/-! ### C6 -/

/-- In a state whose templates never pair id `tid` with owner `uid`,
the ownership-scoped lookup finds nothing. -/
lemma getOwned_eq_none (db : DB) (tid uid : Nat)
    (h : ∀ t ∈ db.templates, t.id = tid → t.user_id ≠ uid) :
    getOwned db tid uid = none := by
  simp only [getOwned, List.find?_eq_none]
  intro t ht
  simp only [Bool.and_eq_true, beq_iff_eq, not_and]
  intro hid huid
  exact h t ht hid huid

/-- C6: CONFIRMED. `get_template` filters on `Template.id == template_id
AND Template.user_id == current_user.id` in one query (templates.py
lines 100-104) and raises the same `HTTPException(404, "Template not
found")` whenever the query is empty (line 107). A state `db1` in which
the id does not exist at all and a state `db2` in which it exists but
is owned by someone else therefore produce literally the same error
value — the caller cannot distinguish the two causes, so existence of
other users' templates is never leaked. -/
theorem C6_ownership_miss_equals_absent (db1 db2 : DB) (uid tid : Nat)
    (h1 : ∀ t ∈ db1.templates, t.id ≠ tid)
    (h2 : ∀ t ∈ db2.templates, t.id = tid → t.user_id ≠ uid) :
    get_template db1 uid tid = get_template db2 uid tid
  ∧ get_template db1 uid tid = Except.error Err.templateNotFound := by
  have g1 : getOwned db1 tid uid = none :=
    getOwned_eq_none db1 tid uid (fun t ht hid _ => h1 t ht hid)
  have g2 : getOwned db2 tid uid = none := getOwned_eq_none db2 tid uid h2
  constructor
  · simp [get_template, g1, g2]
  · simp [get_template, g1]

/-- Witness for C6: id 1 does not exist in the empty state, and exists
in a second state but owned by user 8; for the requester (user 7) both
lookups yield the identical 404. -/
theorem C6_witness :
    get_template ⟨[], []⟩ 7 1 = get_template ⟨[⟨1, 8, some "X", some [], 0⟩], []⟩ 7 1
  ∧ get_template ⟨[], []⟩ 7 1 = Except.error Err.templateNotFound :=
  C6_ownership_miss_equals_absent ⟨[], []⟩ ⟨[⟨1, 8, some "X", some [], 0⟩], []⟩ 7 1
    (by simp) (by decide)

/-! ### C1: the version-numbering invariant -/

/-- Folding `pickNewer` from a `some` accumulator yields an element of
the accumulator-or-list whose version number dominates everything
seen. -/
lemma foldl_pickNewer_some :
    ∀ (l : List TemplateVersion) (w : TemplateVersion),
      ∃ u, l.foldl pickNewer (some w) = some u
        ∧ (u = w ∨ u ∈ l) ∧ w.version ≤ u.version ∧ ∀ v ∈ l, v.version ≤ u.version
  | [], w => ⟨w, rfl, Or.inl rfl, Nat.le_refl _, by simp⟩
  | v :: tl, w => by
    have hstep : (v :: tl).foldl pickNewer (some w)
        = tl.foldl pickNewer (if w.version < v.version then some v else some w) := by
      simp [List.foldl_cons, pickNewer]
    by_cases hlt : w.version < v.version
    · obtain ⟨u, hu, hmem, hle, hall⟩ := foldl_pickNewer_some tl v
      refine ⟨u, ?_, ?_, ?_, ?_⟩
      · rw [hstep, if_pos hlt]; exact hu
      · rcases hmem with h | h
        · exact Or.inr (by rw [h]; exact List.mem_cons_self v tl)
        · exact Or.inr (List.mem_cons_of_mem v h)
      · exact Nat.le_trans (Nat.le_of_lt hlt) hle
      · intro x hx
        rcases List.mem_cons.mp hx with h | h
        · rw [h]; exact hle
        · exact hall x h
    · obtain ⟨u, hu, hmem, hle, hall⟩ := foldl_pickNewer_some tl w
      refine ⟨u, ?_, ?_, ?_, ?_⟩
      · rw [hstep, if_neg hlt]; exact hu
      · rcases hmem with h | h
        · exact Or.inl h
        · exact Or.inr (List.mem_cons_of_mem v h)
      · exact hle
      · intro x hx
        rcases List.mem_cons.mp hx with h | h
        · rw [h]; exact Nat.le_trans (Nat.le_of_not_lt hlt) hle
        · exact hall x h

/-- The fold yields `none` exactly on the empty list. -/
lemma foldl_pickNewer_none_iff (l : List TemplateVersion) :
    l.foldl pickNewer none = none ↔ l = [] := by
  cases l with
  | nil => simp
  | cons v tl =>
    have hstep : (v :: tl).foldl pickNewer none = tl.foldl pickNewer (some v) := by
      simp [List.foldl_cons, pickNewer]
    obtain ⟨u, hu, _, _, _⟩ := foldl_pickNewer_some tl v
    rw [hstep, hu]
    simp

/-- A `some` result of the fold is a member dominating the whole list. -/
lemma foldl_pickNewer_max (l : List TemplateVersion) (u : TemplateVersion)
    (h : l.foldl pickNewer none = some u) :
    u ∈ l ∧ ∀ v ∈ l, v.version ≤ u.version := by
  cases l with
  | nil => exact absurd h (by simp)
  | cons v tl =>
    have hstep : (v :: tl).foldl pickNewer none = tl.foldl pickNewer (some v) := by
      simp [List.foldl_cons, pickNewer]
    obtain ⟨u', hu', hmem, hle, hall⟩ := foldl_pickNewer_some tl v
    rw [hstep, hu'] at h
    obtain rfl : u' = u := Option.some_injective _ h
    constructor
    · rcases hmem with h' | h'
      · rw [h']; exact List.mem_cons_self v tl
      · exact List.mem_cons_of_mem v h'
    · intro x hx
      rcases List.mem_cons.mp hx with h' | h'
      · rw [h']; exact hle
      · exact hall x h'

/-- If a template has no latest version row, it has no versions. -/
lemma latestVersionRecord_none (db : DB) (tid : Nat)
    (h : latestVersionRecord db tid = none) : versionNums db tid = [] := by
  have hnil := (foldl_pickNewer_none_iff _).mp h
  simp [versionNums, hnil]

/-- The latest version row's number is the maximum stored number. -/
lemma latestVersionRecord_max (db : DB) (tid : Nat) (u : TemplateVersion)
    (h : latestVersionRecord db tid = some u) :
    u.version ∈ versionNums db tid ∧ ∀ n ∈ versionNums db tid, n ≤ u.version := by
  obtain ⟨hmem, hall⟩ := foldl_pickNewer_max _ u h
  constructor
  · exact List.mem_map.mpr ⟨u, hmem, rfl⟩
  · intro n hn
    obtain ⟨v, hv, rfl⟩ := List.mem_map.mp hn
    exact hall v hv

/-- The list of version numbers is exactly `{1, ..., k}` for `k` its
length: no duplicates, every member in range, every number in range a
member. -/
def Contig (l : List Nat) : Prop :=
  l.Nodup ∧ (∀ n ∈ l, 1 ≤ n ∧ n ≤ l.length) ∧ (∀ n, 1 ≤ n → n ≤ l.length → n ∈ l)

lemma contig_nil : Contig [] := by
  refine ⟨List.nodup_nil, by simp, ?_⟩
  intro n h1 h2
  exact absurd (Nat.le_trans h1 h2) (by decide)

/-- Appending `length + 1` preserves contiguity. -/
lemma contig_snoc (l : List Nat) (h : Contig l) : Contig (l ++ [l.length + 1]) := by
  obtain ⟨hnd, hbound, hcover⟩ := h
  refine ⟨?_, ?_, ?_⟩
  · rw [List.nodup_append]
    refine ⟨hnd, List.nodup_singleton _, ?_⟩
    intro a ha hb
    rw [List.mem_singleton] at hb
    have := (hbound a ha).2
    omega
  · intro n hn
    rw [List.length_append, List.length_singleton]
    rcases List.mem_append.mp hn with h' | h'
    · have := hbound n h'
      exact ⟨this.1, by omega⟩
    · rw [List.mem_singleton] at h'
      exact ⟨by omega, by omega⟩
  · intro n h1 h2
    rw [List.length_append, List.length_singleton] at h2
    rw [List.mem_append, List.mem_singleton]
    by_cases hle : n ≤ l.length
    · exact Or.inl (hcover n h1 hle)
    · exact Or.inr (by omega)

/-- On a contiguous history the next number computed by `add_version`'s
read half is one past the count of stored versions. -/
lemma nextVersionNumber_eq (db : DB) (tid : Nat) (h : Contig (versionNums db tid)) :
    nextVersionNumber db tid = (versionNums db tid).length + 1 := by
  unfold nextVersionNumber
  cases hlv : latestVersionRecord db tid with
  | none =>
    rw [latestVersionRecord_none db tid hlv]
    rfl
  | some u =>
    obtain ⟨hmem, hmax⟩ := latestVersionRecord_max db tid u hlv
    obtain ⟨hnd, hbound, hcover⟩ := h
    have hub : u.version ≤ (versionNums db tid).length := (hbound _ hmem).2
    have hpos : 1 ≤ (versionNums db tid).length :=
      List.length_pos.mpr (List.ne_nil_of_mem hmem)
    have hlb : (versionNums db tid).length ≤ u.version :=
      hmax _ (hcover _ hpos (Nat.le_refl _))
    show u.version + 1 = (versionNums db tid).length + 1
    omega

/-- Effect of the write half on each template's stored numbers. -/
lemma versionNums_writeVersion (run : Run) (db : DB) (tid n : Nat) (data : Json)
    (vid tid' : Nat) :
    versionNums (writeVersion run db tid n data vid) tid'
      = versionNums db tid' ++ (if tid = tid' then [n] else []) := by
  simp only [versionNums, writeVersion, List.filter_append, List.map_append]
  congr 1
  by_cases h : tid = tid'
  · subst h; simp
  · simp [List.filter_cons, h]

/-- Inserting the metadata row does not touch the versions table. -/
lemma versionNums_step1 (run : Run) (db : DB) (uid : Nat) (name : String)
    (subs : List String) (tid tid' : Nat) :
    versionNums (createTemplateStep1 run db uid name subs tid) tid' = versionNums db tid' :=
  rfl

/-- The second half of `create_template` is a write of version 1. -/
lemma createTemplateStep2_eq_write (run : Run) (db : DB) (tid vid : Nat) (data : Json) :
    createTemplateStep2 run db tid vid data = writeVersion run db tid 1 data vid :=
  rfl

/-- The invariant of the claim: every template's stored version numbers
form exactly `{1, ..., k}` with `k ≥ 1`. -/
def Inv (db : DB) : Prop :=
  ∀ t ∈ db.templates, Contig (versionNums db t.id) ∧ versionNums db t.id ≠ []

/-- C1: CONFIRMED. From any state satisfying the invariant, a completed
`create_template` (with a fresh uuid, which is what `uuid4` supplies)
stores exactly version 1 for the new template and preserves the
invariant for every template, and a successful sequential `add_version`
stores `highest existing version + 1` (i.e. `k + 1`, one past the count)
and preserves the invariant — so after creation completes the numbers
are always `{1, ..., k}` for some `k ≥ 1`, with no gaps or
duplicates. -/
theorem C1_version_numbering_invariant (run : Run) (db : DB) (hInv : Inv db) :
    (∀ uid name subs data tid vid,
      (∀ t ∈ db.templates, t.id ≠ tid) →
      (∀ v ∈ db.versions, v.template_id ≠ tid) →
      Inv (create_template run db uid name subs data tid vid).1)
  ∧ (∀ uid tid data vid db' n,
      add_version run db uid tid data vid = Except.ok (db', n) →
      Inv db' ∧ n = (versionNums db tid).length + 1) := by
  constructor
  · intro uid name subs data tid vid hfreshT hfreshV
    have hnums : ∀ tid',
        versionNums (create_template run db uid name subs data tid vid).1 tid'
          = versionNums db tid' ++ (if tid = tid' then [1] else []) := by
      intro tid'
      show versionNums
        (createTemplateStep2 run (createTemplateStep1 run db uid name subs tid) tid vid data)
        tid' = _
      rw [createTemplateStep2_eq_write, versionNums_writeVersion, versionNums_step1]
    intro t ht
    have htsplit : t ∈ db.templates ++ [⟨tid, uid, some name, some subs, run.moduleLoadTime⟩] := ht
    rcases List.mem_append.mp htsplit with hold | hnew
    · have hne : tid ≠ t.id := fun h => hfreshT t hold h.symm
      have heq : versionNums (create_template run db uid name subs data tid vid).1 t.id
          = versionNums db t.id := by
        rw [hnums, if_neg hne, List.append_nil]
      rw [heq]
      exact hInv t hold
    · rw [List.mem_singleton] at hnew
      have hid : t.id = tid := by rw [hnew]
      have hempty : versionNums db tid = [] := by
        simp only [versionNums, List.map_eq_nil_iff, List.filter_eq_nil_iff]
        intro v hv
        simp only [beq_iff_eq]
        exact hfreshV v hv
      have heq : versionNums (create_template run db uid name subs data tid vid).1 t.id
          = [1] := by
        rw [hid, hnums, if_pos rfl, hempty, List.nil_append]
      rw [heq]
      exact ⟨by simpa using contig_snoc [] contig_nil, by simp⟩
  · intro uid tid data vid db' n hok
    unfold add_version at hok
    cases hg : getOwned db tid uid with
    | none => rw [hg] at hok; exact absurd hok (by simp)
    | some t0 =>
      rw [hg] at hok
      simp only [Except.ok.injEq, Prod.mk.injEq] at hok
      obtain ⟨hdb', hn⟩ := hok
      have ht0mem : t0 ∈ db.templates := List.mem_of_find?_eq_some hg
      have ht0p := List.find?_some hg
      have ht0id : t0.id = tid := by
        simp only [Bool.and_eq_true, beq_iff_eq] at ht0p
        exact ht0p.1
      have hContig : Contig (versionNums db tid) := by
        have := (hInv t0 ht0mem).1
        rw [ht0id] at this
        exact this
      have hnext := nextVersionNumber_eq db tid hContig
      refine ⟨?_, by rw [← hn, hnext]⟩
      intro t ht
      have htmem : t ∈ db.templates := by
        rw [← hdb'] at ht
        exact ht
      rw [← hdb']
      by_cases hid : tid = t.id
      · have heq : versionNums (writeVersion run db tid (nextVersionNumber db tid) data vid) t.id
            = versionNums db tid ++ [(versionNums db tid).length + 1] := by
          rw [versionNums_writeVersion, if_pos hid, hnext, ← hid]
        rw [heq]
        exact ⟨contig_snoc _ hContig, by simp⟩
      · have heq : versionNums (writeVersion run db tid (nextVersionNumber db tid) data vid) t.id
            = versionNums db t.id := by
          rw [versionNums_writeVersion, if_neg hid, List.append_nil]
        rw [heq]
        exact hInv t htmem

/-- Witness for C1: creating a template in the empty state (invariant
holds vacuously, ids fresh) yields a state satisfying the invariant. -/
theorem C1_witness :
    Inv (create_template ⟨0⟩ ⟨[], []⟩ 7 "A4" ["cover"] payload1 1 2).1 :=
  (C1_version_numbering_invariant ⟨0⟩ ⟨[], []⟩
      (by intro t ht; exact absurd ht (List.not_mem_nil t))).1
    7 "A4" ["cover"] payload1 1 2
    (by intro t ht; exact absurd ht (List.not_mem_nil t))
    (by intro v hv; exact absurd hv (List.not_mem_nil v))

/-! ### C7 -/

/-- C7: CONFIRMED. `delete_template` (templates.py lines 120-145)
deletes every version row of the template and then the template row,
in one commit. Under primary-key uniqueness of template ids (which the
database guarantees), the resulting state contains no template with the
deleted id and no version referencing it, so every subsequent
`list_versions` or `get_versions` on that id — by any user — gets the
`Template not found` error, and no version row outlives its template in
query results. -/
theorem C7_delete_cascades (db : DB) (uid tid : Nat) (db' : DB)
    (hids : (db.templates.map (fun t => t.id)).Nodup)
    (hdel : delete_template db uid tid = Except.ok db') :
    (∀ t ∈ db'.templates, t.id ≠ tid)
  ∧ (∀ v ∈ db'.versions, v.template_id ≠ tid)
  ∧ (∀ uid2, list_versions db' uid2 tid = Except.error Err.templateNotFound)
  ∧ (∀ uid2 vid, get_versions db' uid2 tid vid = Except.error Err.templateNotFound) := by
  unfold delete_template at hdel
  cases hg : getOwned db tid uid with
  | none => rw [hg] at hdel; exact absurd hdel (by simp)
  | some t0 =>
    rw [hg] at hdel
    simp only [Except.ok.injEq] at hdel
    have ht0mem : t0 ∈ db.templates := List.mem_of_find?_eq_some hg
    have ht0p := List.find?_some hg
    obtain ⟨a, l₁, l₂, hnl₁, hpa, hlsplit, herase⟩ :=
      List.exists_of_eraseP (p := fun t => t.id == tid && t.user_id == uid) ht0mem ht0p
    have haid : a.id = tid := by
      simp only [Bool.and_eq_true, beq_iff_eq] at hpa
      exact hpa.1
    have hndl : db.templates.Nodup := List.Nodup.of_map _ hids
    have goal1 : ∀ t ∈ db'.templates, t.id ≠ tid := by
      intro t ht hidt
      have htE : t ∈ l₁ ++ l₂ := by
        rw [← hdel] at ht
        rw [← herase]
        exact ht
      have htl : t ∈ db.templates := by
        rw [hlsplit]
        rcases List.mem_append.mp htE with h | h
        · exact List.mem_append.mpr (Or.inl h)
        · exact List.mem_append.mpr (Or.inr (List.mem_cons_of_mem a h))
      have hamem : a ∈ db.templates := by
        rw [hlsplit]
        exact List.mem_append.mpr (Or.inr (List.mem_cons_self a l₂))
      have hta : t = a := by
        refine List.inj_on_of_nodup_map hids htl hamem ?_
        rw [hidt, haid]
      rw [hlsplit, List.nodup_append] at hndl
      rcases List.mem_append.mp htE with h | h
      · exact hndl.2.2 (hta ▸ h) (List.mem_cons_self a l₂)
      · exact (List.nodup_cons.mp hndl.2.1).1 (hta ▸ h)
    have goal2 : ∀ v ∈ db'.versions, v.template_id ≠ tid := by
      intro v hv
      rw [← hdel] at hv
      have := List.of_mem_filter hv
      simpa using this
    have gowned : ∀ uid2, getOwned db' tid uid2 = none := by
      intro uid2
      exact getOwned_eq_none db' tid uid2 (fun t ht hidt _ => goal1 t ht hidt)
    refine ⟨goal1, goal2, ?_, ?_⟩
    · intro uid2
      simp [list_versions, gowned uid2]
    · intro uid2 vid
      simp [get_versions, gowned uid2]

/-- Witness for C7: deleting the sole template of `db1T` empties the
state, and a subsequent `list_versions` on its id is a 404. -/
theorem C7_witness :
    list_versions ⟨[], []⟩ 7 1 = Except.error Err.templateNotFound :=
  (C7_delete_cascades db1T 7 1 ⟨[], []⟩ (by decide) (by rfl)).2.2.1 7

/-! ### C8 -/

/-- C8: CONFIRMED. Payloads are stored verbatim and never rewritten:
(1) the version inserted by a successful `add_version` is returned by a
later `get_versions` lookup with exactly the supplied payload; (2) any
version readable before the append is readable afterwards with an
unchanged response — appending version 2 does not alter what
`get_versions` returns for version 1; (3) the initial version stored by
`create_template` likewise round-trips its payload unchanged. Freshness
of the inserted row ids reflects `uuid4` generation. -/
theorem C8_payload_roundtrip_immutable (run : Run) (db : DB) (uid tid : Nat)
    (data : Json) (vid : Nat) (db' : DB) (n : Nat)
    (hadd : add_version run db uid tid data vid = Except.ok (db', n))
    (hfresh : ∀ v ∈ db.versions, v.id ≠ vid) :
    get_versions db' uid tid vid = Except.ok ⟨vid, n, run.moduleLoadTime, data⟩
  ∧ (∀ vid0 r, get_versions db uid tid vid0 = Except.ok r →
      get_versions db' uid tid vid0 = Except.ok r)
  ∧ (∀ name subs tid0 vid0 data0,
      (∀ t ∈ db.templates, t.id ≠ tid0) →
      (∀ v ∈ db.versions, v.template_id ≠ tid0) →
      get_versions (create_template run db uid name subs data0 tid0 vid0).1 uid tid0 vid0
        = Except.ok ⟨vid0, 1, run.moduleLoadTime, data0⟩) := by
  unfold add_version at hadd
  cases hg : getOwned db tid uid with
  | none => rw [hg] at hadd; exact absurd hadd (by simp)
  | some t0 =>
    rw [hg] at hadd
    simp only [Except.ok.injEq, Prod.mk.injEq] at hadd
    obtain ⟨hdb', hn⟩ := hadd
    subst hdb'
    subst hn
    refine ⟨?_, ?_, ?_⟩
    · have hOwned : getOwned (writeVersion run db tid (nextVersionNumber db tid) data vid)
          tid uid = some t0 := hg
      have hFindOld :
          db.versions.find? (fun v => v.template_id == tid && v.id == vid) = none := by
        rw [List.find?_eq_none]
        intro v hv
        simp only [Bool.and_eq_true, beq_iff_eq, not_and]
        intro _ hvid
        exact hfresh v hv hvid
      have hFind : findVersion (writeVersion run db tid (nextVersionNumber db tid) data vid)
          tid vid = some ⟨vid, tid, nextVersionNumber db tid, data, run.moduleLoadTime⟩ := by
        simp only [findVersion, writeVersion, List.find?_append, hFindOld]
        simp
      simp [get_versions, hOwned, hFind]
    · intro vid0 r hr
      unfold get_versions at hr ⊢
      rw [hg] at hr
      have hOwned : getOwned (writeVersion run db tid (nextVersionNumber db tid) data vid)
          tid uid = some t0 := hg
      rw [hOwned]
      cases hf : findVersion db tid vid0 with
      | none => rw [hf] at hr; exact absurd hr (by simp)
      | some v0 =>
        rw [hf] at hr
        have hFind : findVersion (writeVersion run db tid (nextVersionNumber db tid) data vid)
            tid vid0 = some v0 := by
          have : db.versions.find? (fun v => v.template_id == tid && v.id == vid0)
              = some v0 := hf
          simp only [findVersion, writeVersion, List.find?_append, this]
          rfl
        rw [hFind]
        exact hr
    · intro name subs tid0 vid0 data0 hfT hfV
      have hOwned : getOwned (create_template run db uid name subs data0 tid0 vid0).1 tid0 uid
          = some ⟨tid0, uid, some name, some subs, run.moduleLoadTime⟩ := by
        have h1 : db.templates.find? (fun t => t.id == tid0 && t.user_id == uid) = none := by
          rw [List.find?_eq_none]
          intro t ht
          simp only [Bool.and_eq_true, beq_iff_eq, not_and]
          intro hid _
          exact hfT t ht hid
        simp only [getOwned, create_template, createTemplateStep1, createTemplateStep2,
          List.find?_append, h1]
        simp
      have hFind : findVersion (create_template run db uid name subs data0 tid0 vid0).1
          tid0 vid0 = some ⟨vid0, tid0, 1, data0, run.moduleLoadTime⟩ := by
        have h1 : db.versions.find? (fun v => v.template_id == tid0 && v.id == vid0)
            = none := by
          rw [List.find?_eq_none]
          intro v hv
          simp only [Bool.and_eq_true, beq_iff_eq, not_and]
          intro hid _
          exact hfV v hv hid
        simp only [findVersion, create_template, createTemplateStep1, createTemplateStep2,
          List.find?_append, h1]
        simp
      simp [get_versions, hOwned, hFind]

/-- State after appending version 2 (payload `{rows:4, cols:3}`) to
`db1T`, as `add_version` produces it. -/
def db1T' : DB :=
  ⟨[⟨1, 7, some "A4", some ["cover"], 0⟩],
   [⟨10, 1, 1, payload1, 0⟩, ⟨11, 1, 2, payload2, 0⟩]⟩

/-- Witness for C8: after appending version 2 to `db1T`, fetching the
new row returns the supplied payload verbatim. -/
theorem C8_witness :
    get_versions db1T' 7 1 11 = Except.ok ⟨11, 2, 0, payload2⟩ :=
  (C8_payload_roundtrip_immutable ⟨0⟩ db1T 7 1 payload2 11 db1T' 2 (by rfl)
    (by decide)).1

/-! ### C9: the pydantic boundary validation of the payload -/

/-- Field lookup in a JSON object (absent on non-objects). -/
def Json.getField : Json → String → Option Json
  | Json.obj fields, k => fields.lookup k
  | _, _ => none

def Json.asInt : Json → Option Int
  | Json.num n => some n
  | _ => none

def Json.asStr : Json → Option String
  | Json.str s => some s
  | _ => none

def Json.asArr : Json → Option (List Json)
  | Json.arr items => some items
  | _ => none

def Json.isObj : Json → Bool
  | Json.obj _ => true
  | _ => false

/-- An `Optional[int]` pydantic field: absent or `null` gives `None`,
an integer is taken, anything else is a validation failure. -/
def optIntField (j : Json) (k : String) : Option (Option Int) :=
  match j.getField k with
  | none => some none
  | some Json.null => some none
  | some v => (v.asInt).map some

/-- An `Optional[str]` pydantic field. -/
def optStrField (j : Json) (k : String) : Option (Option String) :=
  match j.getField k with
  | none => some none
  | some Json.null => some none
  | some v => (v.asStr).map some

/-- `TemplateDataCreate` (schemas.py lines 31-39): the pydantic request
model every version payload must satisfy at the boundary. -/
structure TemplateDataCreate where
  rows : Int
  cols : Int
  paperSize : String
  orientation : String
  customWidth : Option Int
  customHeight : Option Int
  background_image : Option String
  menu_items : List Json

/-- Pydantic validation of a request body against `TemplateDataCreate`:
`rows`/`cols` must be integers, `paperSize`/`orientation` strings,
`menu_items` a list whose elements are objects (their inner keys and
values are NOT validated, matching `List[dict[str, Any]]`); the three
optional fields may be absent or null. Any other document is rejected
(HTTP 422) before the router runs. -/
def TemplateDataCreate.parse (j : Json) : Option TemplateDataCreate := do
  let rows ← (← j.getField "rows").asInt
  let cols ← (← j.getField "cols").asInt
  let ps ← (← j.getField "paperSize").asStr
  let ori ← (← j.getField "orientation").asStr
  let cw ← optIntField j "customWidth"
  let ch ← optIntField j "customHeight"
  let bg ← optStrField j "background_image"
  let mi ← (← j.getField "menu_items").asArr
  if mi.all Json.isObj then
    some ⟨rows, cols, ps, ori, cw, ch, bg, mi⟩
  else
    none

/-- C9 counterexample: REFUTES the claim as stated. The empty JSON
object is a well-formed structured (nested key/value) document, yet the
boundary rejects it — `create_template` and `add_version` bodies are
validated against the `TemplateDataCreate` schema, not accepted
opaquely. -/
theorem C9_counterexample :
    TemplateDataCreate.parse (Json.obj []) = none := rfl

/-- C9 as amended: the payload is validated against the declared
top-level schema. A document supplying integer `rows` and `cols`,
string `paperSize` and `orientation`, and a `menu_items` list of
objects is accepted (with the objects' nested contents taken as-is,
unvalidated, and the optional fields defaulting to `None`); a document
lacking the required `rows` field is always rejected. -/
theorem C9_schema_validation (rows cols : Int) (ps ori : String)
    (mi : List (List (String × Json))) :
    TemplateDataCreate.parse (Json.obj
        [("rows", Json.num rows), ("cols", Json.num cols), ("paperSize", Json.str ps),
         ("orientation", Json.str ori), ("menu_items", Json.arr (mi.map Json.obj))])
      = some ⟨rows, cols, ps, ori, none, none, none, mi.map Json.obj⟩
  ∧ (∀ j : Json, j.getField "rows" = none → TemplateDataCreate.parse j = none) := by
  constructor
  · have hall : (mi.map Json.obj).all Json.isObj = true := by
      rw [List.all_eq_true]
      intro x hx
      obtain ⟨y, _, rfl⟩ := List.mem_map.mp hx
      rfl
    have hred : TemplateDataCreate.parse (Json.obj
          [("rows", Json.num rows), ("cols", Json.num cols), ("paperSize", Json.str ps),
           ("orientation", Json.str ori), ("menu_items", Json.arr (mi.map Json.obj))])
        = if (mi.map Json.obj).all Json.isObj then
            some ⟨rows, cols, ps, ori, none, none, none, mi.map Json.obj⟩
          else none := rfl
    rw [hred, if_pos hall]
  · intro j h
    unfold TemplateDataCreate.parse
    rw [h]
    rfl

/-- Witness for C9's amended statement: a concrete in-schema document
is accepted with its `menu_items` kept verbatim, and a non-object
document is rejected. -/
theorem C9_witness :
    TemplateDataCreate.parse (Json.obj
        [("rows", Json.num 2), ("cols", Json.num 3), ("paperSize", Json.str "A4"),
         ("orientation", Json.str "portrait"), ("menu_items", Json.arr [])])
      = some ⟨2, 3, "A4", "portrait", none, none, none, []⟩
  ∧ TemplateDataCreate.parse Json.null = none :=
  ⟨(C9_schema_validation 2 3 "A4" "portrait" []).1,
   (C9_schema_validation 2 3 "A4" "portrait" []).2 Json.null rfl⟩

/-! ### C10 -/

/-- C10: CONFIRMED. `created_at = Column(DateTime,
default=datetime.now(timezone.utc))` (models.py lines 30 and 44) calls
`datetime.now` ONCE, when the module is imported, and installs the
resulting constant as the column default. Consequently every
`Template` and every `TemplateVersion` row created during one process
run — by `create_template` or `add_version`, at whatever wall-clock
moment — carries the identical `created_at`, namely the module-load
timestamp; a version appended later never carries a later `created_at`
than an earlier one within the same run. -/
theorem C10_created_at_frozen_at_import (run : Run) (db : DB) :
    (∀ uid name subs data tid vid,
      (∀ t, t ∈ (create_template run db uid name subs data tid vid).1.templates →
        t ∉ db.templates → t.created_at = run.moduleLoadTime)
      ∧ (∀ v, v ∈ (create_template run db uid name subs data tid vid).1.versions →
        v ∉ db.versions → v.created_at = run.moduleLoadTime))
  ∧ (∀ uid tid data vid db' n,
      add_version run db uid tid data vid = Except.ok (db', n) →
      ∀ v, v ∈ db'.versions → v ∉ db.versions → v.created_at = run.moduleLoadTime) := by
  constructor
  · intro uid name subs data tid vid
    constructor
    · intro t ht hnew
      have ht' : t ∈ db.templates ++ [⟨tid, uid, some name, some subs, run.moduleLoadTime⟩] :=
        ht
      rcases List.mem_append.mp ht' with h | h
      · exact absurd h hnew
      · rw [List.mem_singleton.mp h]
    · intro v hv hnew
      have hv' : v ∈ db.versions ++ [⟨vid, tid, 1, data, run.moduleLoadTime⟩] := hv
      rcases List.mem_append.mp hv' with h | h
      · exact absurd h hnew
      · rw [List.mem_singleton.mp h]
  · intro uid tid data vid db' n hok
    unfold add_version at hok
    cases hg : getOwned db tid uid with
    | none => rw [hg] at hok; exact absurd hok (by simp)
    | some t0 =>
      rw [hg] at hok
      simp only [Except.ok.injEq, Prod.mk.injEq] at hok
      obtain ⟨hdb', hn⟩ := hok
      intro v hv hnew
      rw [← hdb'] at hv
      have hv' : v ∈ db.versions
          ++ [⟨vid, tid, nextVersionNumber db tid, data, run.moduleLoadTime⟩] := hv
      rcases List.mem_append.mp hv' with h | h
      · exact absurd h hnew
      · rw [List.mem_singleton.mp h]

/-- Witness for C10: the template row created in the empty state during
a run whose module-load timestamp is 3 carries `created_at = 3`. -/
theorem C10_witness :
    (⟨1, 7, some "A4", some ["cover"], 3⟩ : Template).created_at = 3 :=
  ((C10_created_at_frozen_at_import ⟨3⟩ ⟨[], []⟩).1 7 "A4" ["cover"] payload1 1 2).1
    ⟨1, 7, some "A4", some ["cover"], 3⟩
    (by simp [create_template, createTemplateStep1, createTemplateStep2])
    (by simp)

end VDTE
